import Mathlib

/-!
Verification of the adapter lifecycle and chain-configuration core of
web3auth-web, a shallow embedding of src/packages/base/src/adapter/IAdapter.ts
(class BaseAdapter).  Statuses are the ADAPTER_STATUS enum; a chain config is a
JavaScript object whose keys may be absent, embedded as a structure of optional
string fields; the known-chains map is an association list keyed by the
(possibly absent) chainId field; each guard is a pure function from the adapter
state to an optional error, because the TypeScript guard bodies assign no field
and either throw or return.  The registry lookup getChainConfig imported from
../chain/config is passed as an explicit function argument, so every theorem
holds for an arbitrary registry.
-/

namespace Web3Auth

/-- ADAPTER_STATUS from IAdapter.ts: the closed set of adapter status strings. -/
inductive ADAPTER_STATUS where
  | NOT_READY
  | READY
  | CONNECTING
  | CONNECTED
  | DISCONNECTED
  | ERRORED
  deriving DecidableEq

/-- The keys of a CustomChainConfig object, as used by the adapter base and the
demo chain tables. -/
inductive ConfigKey where
  | chainNamespace
  | chainId
  | rpcTarget
  | displayName
  | blockExplorerUrl
  | ticker
  | tickerName
  | logo
  deriving DecidableEq

/-- A CustomChainConfig object: every key may be absent (JavaScript object with
optional keys).  Namespaces and chain ids are strings in the source
(ChainNamespaceType is a string union), so all fields are optional strings. -/
structure CustomChainConfig where
  chainNamespace : Option String := none
  chainId : Option String := none
  rpcTarget : Option String := none
  displayName : Option String := none
  blockExplorerUrl : Option String := none
  ticker : Option String := none
  tickerName : Option String := none
  logo : Option String := none
  deriving DecidableEq

/-- Reading one key of a config object. -/
def CustomChainConfig.get (c : CustomChainConfig) : ConfigKey → Option String
  | ConfigKey.chainNamespace => c.chainNamespace
  | ConfigKey.chainId => c.chainId
  | ConfigKey.rpcTarget => c.rpcTarget
  | ConfigKey.displayName => c.displayName
  | ConfigKey.blockExplorerUrl => c.blockExplorerUrl
  | ConfigKey.ticker => c.ticker
  | ConfigKey.tickerName => c.tickerName
  | ConfigKey.logo => c.logo

/-- The empty object, used for the or-empty fallbacks in the source. -/
def emptyChainConfig : CustomChainConfig := {}

/-- One key of a JavaScript spread: the overriding object wins when it has the
key, else the base object supplies it. -/
def orKey : Option String → Option String → Option String
  | some v, _ => some v
  | none, b => b

/-- The JavaScript object spread `... base then over`: every key present in
`over` wins, keys only in `base` are kept. -/
def spreadMerge (base over : CustomChainConfig) : CustomChainConfig :=
  { chainNamespace := orKey over.chainNamespace base.chainNamespace
    chainId := orKey over.chainId base.chainId
    rpcTarget := orKey over.rpcTarget base.rpcTarget
    displayName := orKey over.displayName base.displayName
    blockExplorerUrl := orKey over.blockExplorerUrl base.blockExplorerUrl
    ticker := orKey over.ticker base.ticker
    tickerName := orKey over.tickerName base.tickerName
    logo := orKey over.logo base.logo }

/-- Modelled from the spec: the error kinds of the errors module
(src/packages/base/src/errors is not under src/); section 7 of the spec lists
them, and IAdapter.ts names the factory of each throw site
(WalletInitializationError.invalidParams and notReady,
WalletLoginError.connectionError, disconnectionError, notConnectedError and
chainConfigNotAdded, WalletOperationsError.chainNamespaceNotAllowed). -/
inductive Web3AuthError where
  | invalidParams (message : String)
  | notReady (message : String)
  | connectionError (message : String)
  | disconnectionError (message : String)
  | notConnectedError (message : String)
  | chainNamespaceNotAllowed (message : String)
  | chainConfigNotAdded (message : String)
  deriving DecidableEq

/-- Whether an error is the InvalidParams kind. -/
def Web3AuthError.isInvalidParams : Web3AuthError → Bool
  | Web3AuthError.invalidParams _ => true
  | _ => false

/-- Modelled from the spec: the name constant of the one adapter family allowed
to re-enter CONNECTING (WALLET_ADAPTERS.WALLET_CONNECT_V2 from the wallet
module, not under src/); its concrete value is never load bearing below. -/
def WALLET_CONNECT_V2 : String := "wallet-connect-v2"

/-- Modelled from the spec: CHAIN_NAMESPACES.OTHER from the chain interface
module (not under src/), the namespace whose configs need no rpcTarget or
chainId; the spec lists the namespace strings. -/
def CHAIN_NAMESPACES_OTHER : String := "other"

/-- JavaScript truthiness of an optional string: absent and the empty string
are falsy. -/
def truthyStr : Option String → Bool
  | some s => s != ""
  | none => false

/-- The known-chains map: chainId key (possibly absent) to stored config. -/
abbrev ChainMap := List (Option String × CustomChainConfig)

/-- Indexing the known-chains map. -/
def lookupChain : ChainMap → Option String → Option CustomChainConfig
  | [], _ => none
  | (k, v) :: rest, key => if k = key then some v else lookupChain rest key

/-- Assignment into the known-chains map: replace the entry at the key when it
exists, otherwise append it. -/
def storeChain : ChainMap → Option String → CustomChainConfig → ChainMap
  | [], key, v => [(key, v)]
  | (k, w) :: rest, key, v =>
      if k = key then (k, v) :: rest else (k, w) :: storeChain rest key v

/-- The settings object accepted by the constructor and setAdapterSettings. -/
structure BaseAdapterSettings where
  clientId : Option String := none
  sessionTime : Option Nat := none
  chainConfig : Option CustomChainConfig := none
  web3AuthNetwork : Option String := none
  useCoreKitKey : Option Bool := none
  deriving DecidableEq

/-- The mutable state of a BaseAdapter instance.  The abstract members name,
status and currentChainNamespace are fields with no default, as a concrete
subclass must supply them; hasProvider embeds whether the abstract provider
getter returns a non-null handle. -/
structure BaseAdapter where
  sessionTime : Nat := 86400
  clientId : Option String := none
  web3AuthNetwork : String := "mainnet"
  useCoreKitKey : Option Bool := none
  rehydrated : Bool := false
  chainConfig : Option CustomChainConfig := none
  knownChainConfigs : ChainMap := []
  currentChainNamespace : String
  name : String
  status : ADAPTER_STATUS
  hasProvider : Bool
  deriving DecidableEq

/-- addChainConfig: merge the new config over any existing entry for the same
chain id and store the result. -/
def BaseAdapter.addChainConfig (s : BaseAdapter) (chainConfig : CustomChainConfig) :
    BaseAdapter :=
  let currentConfig := lookupChain s.knownChainConfigs chainConfig.chainId
  { s with
    knownChainConfigs :=
      storeChain s.knownChainConfigs chainConfig.chainId
        (spreadMerge (currentConfig.getD emptyChainConfig) chainConfig) }

/-- The four leading field updates of setAdapterSettings.  In the source they
are four consecutive in-place guarded assignments; they touch four distinct
fields and each condition reads only the options object, so the sequence is one
simultaneous record update.  sessionTime and web3AuthNetwork and clientId are
applied only when truthy (a 0 session time or empty string is skipped), while
useCoreKitKey is applied whenever it is not undefined. -/
def applySimpleSettings (s : BaseAdapter) (options : BaseAdapterSettings) :
    BaseAdapter :=
  { s with
    sessionTime :=
      match options.sessionTime with
      | some n => if n != 0 then n else s.sessionTime
      | none => s.sessionTime
    clientId :=
      match options.clientId with
      | some c => if c != "" then some c else s.clientId
      | none => s.clientId
    web3AuthNetwork :=
      match options.web3AuthNetwork with
      | some w => if w != "" then w else s.web3AuthNetwork
      | none => s.web3AuthNetwork
    useCoreKitKey :=
      match options.useCoreKitKey with
      | some b => some b
      | none => s.useCoreKitKey }

/-- The message of the error thrown when a supplied chain config has no
namespace. -/
def msgChainNamespaceRequired : String :=
  "ChainNamespace is required while setting chainConfig"

/-- setAdapterSettings.  Returns the state after the call together with the
thrown error, if any: in the source the leading field assignments have already
happened when the namespace check throws, so the state component carries them
even in the error case.  `getChainConfig` is the registry lookup imported from
../chain/config, passed explicitly. -/
def BaseAdapter.setAdapterSettings
    (getChainConfig : String → Option String → Option CustomChainConfig)
    (s : BaseAdapter) (options : BaseAdapterSettings) :
    BaseAdapter × Option Web3AuthError :=
  if s.status = ADAPTER_STATUS.READY then (s, none)
  else
    let s1 := applySimpleSettings s options
    match options.chainConfig with
    | none => (s1, none)
    | some customChainConfig =>
      match customChainConfig.chainNamespace with
      | none => (s1, some (Web3AuthError.notReady msgChainNamespaceRequired))
      | some ns =>
        if ns = "" then (s1, some (Web3AuthError.notReady msgChainNamespaceRequired))
        else
          let defaultChainConfig := getChainConfig ns customChainConfig.chainId
          let finalChainConfig :=
            spreadMerge (defaultChainConfig.getD emptyChainConfig) customChainConfig
          (BaseAdapter.addChainConfig
            { s1 with
              currentChainNamespace := ns
              chainConfig := some finalChainConfig }
            finalChainConfig,
           none)

/-- Message of the connect-guard rejection while already connecting. -/
def msgAlreadyConnecting : String := "Already connecting"

/-- Message of the connect-guard rejection while already connected. -/
def msgAlreadyConnected : String := "Already connected"

/-- Message of the connect-guard rejection before init resolved. -/
def msgNotReadyYet : String :=
  "Wallet adapter is not ready yet, Please wait for init function to resolve before calling connect/connectTo function"

/-- checkConnectionRequirements: the connect-guard. -/
def BaseAdapter.checkConnectionRequirements (s : BaseAdapter) :
    Option Web3AuthError :=
  if s.name = WALLET_CONNECT_V2 ∧ s.status = ADAPTER_STATUS.CONNECTING then none
  else if s.status = ADAPTER_STATUS.CONNECTING then
    some (Web3AuthError.notReady msgAlreadyConnecting)
  else if s.status = ADAPTER_STATUS.CONNECTED then
    some (Web3AuthError.connectionError msgAlreadyConnected)
  else if s.status ≠ ADAPTER_STATUS.READY then
    some (Web3AuthError.connectionError msgNotReadyYet)
  else none

/-- Message of the init-guard rejection for a missing client id. -/
def msgClientIdRequired : String :=
  "Please initialize Web3Auth with a valid clientId in constructor"

/-- Message of the init-guard rejection for a missing chain config or a missing
rpc target. -/
def msgRpcTargetRequired : String := "rpcTarget is required in chainConfig"

/-- Message of the init-guard rejection for a missing chain id. -/
def msgChainIdRequired : String := "chainID is required in chainConfig"

/-- Message of the init-guard rejection while connected. -/
def msgInitAlreadyConnected : String := "Already connected"

/-- Message of the init-guard rejection while ready. -/
def msgAlreadyInitialized : String := "Adapter is already initialized"

/-- checkInitializationRequirements: the init-guard. -/
def BaseAdapter.checkInitializationRequirements (s : BaseAdapter) :
    Option Web3AuthError :=
  if truthyStr s.clientId = false then
    some (Web3AuthError.invalidParams msgClientIdRequired)
  else
    match s.chainConfig with
    | none => some (Web3AuthError.invalidParams msgRpcTargetRequired)
    | some cc =>
      if truthyStr cc.rpcTarget = false ∧ cc.chainNamespace ≠ some CHAIN_NAMESPACES_OTHER then
        some (Web3AuthError.invalidParams msgRpcTargetRequired)
      else if truthyStr cc.chainId = false ∧ cc.chainNamespace ≠ some CHAIN_NAMESPACES_OTHER then
        some (Web3AuthError.invalidParams msgChainIdRequired)
      else if s.status = ADAPTER_STATUS.NOT_READY then none
      else if s.status = ADAPTER_STATUS.CONNECTED then
        some (Web3AuthError.notReady msgInitAlreadyConnected)
      else if s.status = ADAPTER_STATUS.READY then
        some (Web3AuthError.notReady msgAlreadyInitialized)
      else none

/-- Message of the disconnect-guard rejection. -/
def msgDisconnectNotConnected : String := "Not connected with wallet"

/-- checkDisconnectionRequirements: the disconnect-guard.  The source body
assigns no field, so the embedding is a pure observer of the state. -/
def BaseAdapter.checkDisconnectionRequirements (s : BaseAdapter) :
    Option Web3AuthError :=
  if s.status ≠ ADAPTER_STATUS.CONNECTED then
    some (Web3AuthError.disconnectionError msgDisconnectNotConnected)
  else none

/-- Message of the chain-guard rejections for a missing provider. -/
def msgNotConnectedProvider : String := "Not connected with wallet."

/-- Message of the add-chain-guard rejection for a foreign namespace (the
source text contracts does-not). -/
def msgNamespaceNotAllowed : String :=
  "This adapter does not support this chainNamespace"

/-- checkAddChainRequirements: the add-chain-guard. -/
def BaseAdapter.checkAddChainRequirements (s : BaseAdapter)
    (chainConfig : CustomChainConfig) (init : Bool) : Option Web3AuthError :=
  if init = false ∧ s.hasProvider = false then
    some (Web3AuthError.notConnectedError msgNotConnectedProvider)
  else if some s.currentChainNamespace ≠ chainConfig.chainNamespace then
    some (Web3AuthError.chainNamespaceNotAllowed msgNamespaceNotAllowed)
  else none

/-- Message of the switch-chain-guard rejection for an unknown chain id. -/
def msgInvalidChainId : String := "Invalid chainId"

/-- checkSwitchChainRequirements: the switch-chain-guard. -/
def BaseAdapter.checkSwitchChainRequirements (s : BaseAdapter)
    (chainId : String) (init : Bool) : Option Web3AuthError :=
  if init = false ∧ s.hasProvider = false then
    some (Web3AuthError.notConnectedError msgNotConnectedProvider)
  else if lookupChain s.knownChainConfigs (some chainId) = none then
    some (Web3AuthError.chainConfigNotAdded msgInvalidChainId)
  else none

/-! ## Helper lemmas on the known-chains map and the spread merge -/

/-- Reading back the key just stored yields the stored value. -/
theorem lookupChain_storeChain_self (m : ChainMap) (key : Option String)
    (v : CustomChainConfig) : lookupChain (storeChain m key v) key = some v := by
  induction m with
  | nil => simp [storeChain, lookupChain]
  | cons hd tl ih =>
    obtain ⟨k, w⟩ := hd
    by_cases h : k = key
    · simp [storeChain, lookupChain, h]
    · simp [storeChain, lookupChain, h, ih]

/-- Storing at one key leaves every other key unchanged. -/
theorem lookupChain_storeChain_ne (m : ChainMap) (key k : Option String)
    (v : CustomChainConfig) (h : k ≠ key) :
    lookupChain (storeChain m key v) k = lookupChain m k := by
  induction m with
  | nil =>
    simp only [storeChain, lookupChain]
    rw [if_neg (fun hc => h hc.symm)]
  | cons hd tl ih =>
    obtain ⟨k0, w⟩ := hd
    by_cases h0 : k0 = key
    · subst h0
      simp only [storeChain, if_pos rfl, lookupChain]
      rw [if_neg (fun hc : k0 = k => h hc.symm),
        if_neg (fun hc : k0 = k => h hc.symm)]
    · simp only [storeChain, if_neg h0, lookupChain]
      by_cases h1 : k0 = k
      · rw [if_pos h1, if_pos h1]
      · rw [if_neg h1, if_neg h1, ih]

/-- Reading one key of a spread is the or of the two objects at that key. -/
theorem spreadMerge_get (base over : CustomChainConfig) (k : ConfigKey) :
    (spreadMerge base over).get k = orKey (over.get k) (base.get k) := by
  cases k <;> rfl

/-- The or of keys ignores a second override by the same object. -/
theorem orKey_self_assoc (a b : Option String) :
    orKey a (orKey a b) = orKey a b := by
  cases a <;> rfl

/-! ## C1: the connect-guard -/

/-- C1: checkConnectionRequirements decides by cases on status: a
WalletConnect-v2 adapter passes while CONNECTING; any other adapter fails with
NotReady (already connecting) while CONNECTING; it fails with ConnectionError
(already connected) while CONNECTED; with ConnectionError (not ready) in every
remaining non-READY status; and passes when READY. -/
theorem C1_checkConnectionRequirements_cases (s : BaseAdapter) :
    (s.status = ADAPTER_STATUS.CONNECTING → s.name = WALLET_CONNECT_V2 →
      s.checkConnectionRequirements = none) ∧
    (s.status = ADAPTER_STATUS.CONNECTING → s.name ≠ WALLET_CONNECT_V2 →
      s.checkConnectionRequirements =
        some (Web3AuthError.notReady msgAlreadyConnecting)) ∧
    (s.status = ADAPTER_STATUS.CONNECTED →
      s.checkConnectionRequirements =
        some (Web3AuthError.connectionError msgAlreadyConnected)) ∧
    (s.status ≠ ADAPTER_STATUS.READY → s.status ≠ ADAPTER_STATUS.CONNECTING →
      s.status ≠ ADAPTER_STATUS.CONNECTED →
      s.checkConnectionRequirements =
        some (Web3AuthError.connectionError msgNotReadyYet)) ∧
    (s.status = ADAPTER_STATUS.READY → s.checkConnectionRequirements = none) := by
  unfold BaseAdapter.checkConnectionRequirements
  refine ⟨fun hc hn => ?_, fun hc hn => ?_, fun hc => ?_,
    fun h1 h2 h3 => ?_, fun hr => ?_⟩
  · simp [hc, hn]
  · simp [hc, hn]
  · simp [hc]
  · simp [h1, h2, h3]
  · simp [hr]

/-! ## C9: the disconnect-guard -/

/-- C9: checkDisconnectionRequirements fails with DisconnectionError in every
status other than CONNECTED and passes when CONNECTED; the source guard body
performs no assignment, so it is embedded as a pure observer and the adapter
state is unchanged by construction. -/
theorem C9_checkDisconnectionRequirements_cases (s : BaseAdapter) :
    (s.status ≠ ADAPTER_STATUS.CONNECTED →
      s.checkDisconnectionRequirements =
        some (Web3AuthError.disconnectionError msgDisconnectNotConnected)) ∧
    (s.status = ADAPTER_STATUS.CONNECTED →
      s.checkDisconnectionRequirements = none) := by
  unfold BaseAdapter.checkDisconnectionRequirements
  exact ⟨fun h => by simp [h], fun h => by simp [h]⟩

/-! ## C2: the init-guard -/

/-- C2: checkInitializationRequirements checks in order: InvalidParams when the
client id is unset; InvalidParams when no chain config is set; InvalidParams
when the rpc target is missing outside the OTHER namespace; InvalidParams when
the chain id is missing outside the OTHER namespace; then the guard passes when
status is NOT_READY, fails with NotReady (already connected) when CONNECTED and
with NotReady (already initialized) when READY. -/
theorem C2_checkInitializationRequirements_cases (s : BaseAdapter) :
    (s.clientId = none →
      s.checkInitializationRequirements =
        some (Web3AuthError.invalidParams msgClientIdRequired)) ∧
    (truthyStr s.clientId = true → s.chainConfig = none →
      s.checkInitializationRequirements =
        some (Web3AuthError.invalidParams msgRpcTargetRequired)) ∧
    (∀ cc : CustomChainConfig, truthyStr s.clientId = true →
      s.chainConfig = some cc → cc.rpcTarget = none →
      cc.chainNamespace ≠ some CHAIN_NAMESPACES_OTHER →
      s.checkInitializationRequirements =
        some (Web3AuthError.invalidParams msgRpcTargetRequired)) ∧
    (∀ cc : CustomChainConfig, truthyStr s.clientId = true →
      s.chainConfig = some cc → truthyStr cc.rpcTarget = true →
      cc.chainId = none → cc.chainNamespace ≠ some CHAIN_NAMESPACES_OTHER →
      s.checkInitializationRequirements =
        some (Web3AuthError.invalidParams msgChainIdRequired)) ∧
    (∀ cc : CustomChainConfig, truthyStr s.clientId = true →
      s.chainConfig = some cc →
      ¬(truthyStr cc.rpcTarget = false ∧ cc.chainNamespace ≠ some CHAIN_NAMESPACES_OTHER) →
      ¬(truthyStr cc.chainId = false ∧ cc.chainNamespace ≠ some CHAIN_NAMESPACES_OTHER) →
      ((s.status = ADAPTER_STATUS.NOT_READY →
          s.checkInitializationRequirements = none) ∧
        (s.status = ADAPTER_STATUS.CONNECTED →
          s.checkInitializationRequirements =
            some (Web3AuthError.notReady msgInitAlreadyConnected)) ∧
        (s.status = ADAPTER_STATUS.READY →
          s.checkInitializationRequirements =
            some (Web3AuthError.notReady msgAlreadyInitialized)))) := by
  unfold BaseAdapter.checkInitializationRequirements
  refine ⟨fun h => ?_, fun h1 h2 => ?_, fun cc h1 h2 h3 h4 => ?_,
    fun cc h1 h2 h3 h4 h5 => ?_, fun cc h1 h2 h3 h4 => ?_⟩
  · simp [h, truthyStr]
  · simp [h1, h2]
  · rw [h2, if_neg (by rw [h1]; decide)]
    dsimp only
    rw [if_pos ⟨by rw [h3]; rfl, h4⟩]
  · rw [h2, if_neg (by rw [h1]; decide)]
    dsimp only
    rw [if_neg (fun hc => by rw [h3] at hc; exact Bool.noConfusion hc.1),
      if_pos ⟨by rw [h4]; rfl, h5⟩]
  · rw [h2, if_neg (by rw [h1]; decide)]
    dsimp only
    rw [if_neg h3, if_neg h4]
    refine ⟨fun hs => ?_, fun hs => ?_, fun hs => ?_⟩
    · simp [hs]
    · simp [hs]
    · simp [hs]

/-! ## C7: the switch-chain-guard -/

/-- C7: checkSwitchChainRequirements fails with NotConnected when called
outside init with no live provider; given init or a live provider it fails with
ChainConfigNotAdded exactly when the chain id has no entry in the known-chains
map, and it passes for a chain id just registered through addChainConfig. -/
theorem C7_checkSwitchChainRequirements_cases (s : BaseAdapter) (chainId : String) :
    (s.hasProvider = false →
      s.checkSwitchChainRequirements chainId false =
        some (Web3AuthError.notConnectedError msgNotConnectedProvider)) ∧
    (∀ init : Bool, (init = true ∨ s.hasProvider = true) →
      (s.checkSwitchChainRequirements chainId init =
          some (Web3AuthError.chainConfigNotAdded msgInvalidChainId) ↔
        lookupChain s.knownChainConfigs (some chainId) = none)) ∧
    (∀ (c : CustomChainConfig) (init : Bool), c.chainId = some chainId →
      (init = true ∨ s.hasProvider = true) →
      (s.addChainConfig c).checkSwitchChainRequirements chainId init = none) := by
  unfold BaseAdapter.checkSwitchChainRequirements
  refine ⟨fun h => ?_, fun init hin => ?_, fun c init hc hin => ?_⟩
  · simp [h]
  · have hcond : ¬(init = false ∧ s.hasProvider = false) := by
      rcases hin with h | h <;> simp [h]
    rw [if_neg hcond]
    constructor
    · intro h
      by_contra hne
      rw [if_neg hne] at h
      exact Option.noConfusion h
    · intro h
      rw [if_pos h]
  · have hprov : (s.addChainConfig c).hasProvider = s.hasProvider := rfl
    have hcond : ¬(init = false ∧ (s.addChainConfig c).hasProvider = false) := by
      rw [hprov]
      rcases hin with h | h <;> simp [h]
    rw [if_neg hcond]
    have hlook : lookupChain (s.addChainConfig c).knownChainConfigs (some chainId) =
        some (spreadMerge
          ((lookupChain s.knownChainConfigs c.chainId).getD emptyChainConfig) c) := by
      show lookupChain
        (storeChain s.knownChainConfigs c.chainId
          (spreadMerge ((lookupChain s.knownChainConfigs c.chainId).getD emptyChainConfig) c))
        (some chainId) = _
      rw [← hc, lookupChain_storeChain_self]
    rw [if_neg (by rw [hlook]; exact fun h => Option.noConfusion h)]

/-! ## C8: the add-chain-guard -/

/-- C8: checkAddChainRequirements fails with NotConnected when called outside
init with no live provider; given init or a live provider it fails with
ChainNamespaceNotAllowed exactly when the config namespace differs from the
adapter currentChainNamespace, and passes when they match. -/
theorem C8_checkAddChainRequirements_cases (s : BaseAdapter)
    (c : CustomChainConfig) :
    (s.hasProvider = false →
      s.checkAddChainRequirements c false =
        some (Web3AuthError.notConnectedError msgNotConnectedProvider)) ∧
    (∀ init : Bool, (init = true ∨ s.hasProvider = true) →
      (c.chainNamespace ≠ some s.currentChainNamespace →
        s.checkAddChainRequirements c init =
          some (Web3AuthError.chainNamespaceNotAllowed msgNamespaceNotAllowed)) ∧
      (c.chainNamespace = some s.currentChainNamespace →
        s.checkAddChainRequirements c init = none)) := by
  unfold BaseAdapter.checkAddChainRequirements
  refine ⟨fun h => ?_, fun init hin => ?_⟩
  · simp [h]
  · have hcond : ¬(init = false ∧ s.hasProvider = false) := by
      rcases hin with h | h <;> simp [h]
    rw [if_neg hcond]
    refine ⟨fun hne => ?_, fun heq => ?_⟩
    · rw [if_pos (fun hc => hne hc.symm)]
    · rw [if_neg (fun hc => hc heq.symm)]

/-! ## C4: addChainConfig is an idempotent, accumulating upsert -/

/-- Helper: the entry addChainConfig stores and where it stores it. -/
theorem addChainConfig_lookup_self (s : BaseAdapter) (c : CustomChainConfig) :
    lookupChain (s.addChainConfig c).knownChainConfigs c.chainId =
      some (spreadMerge
        ((lookupChain s.knownChainConfigs c.chainId).getD emptyChainConfig) c) := by
  show lookupChain
    (storeChain s.knownChainConfigs c.chainId
      (spreadMerge ((lookupChain s.knownChainConfigs c.chainId).getD emptyChainConfig) c))
    c.chainId = _
  rw [lookupChain_storeChain_self]

/-- Helper: merging the same config twice collapses to merging it once. -/
theorem spreadMerge_self_collapse (e c : CustomChainConfig) :
    spreadMerge (spreadMerge e c) c = spreadMerge e c := by
  show CustomChainConfig.mk _ _ _ _ _ _ _ _ = CustomChainConfig.mk _ _ _ _ _ _ _ _
  simp only [spreadMerge, orKey_self_assoc]

/-- C4: addChainConfig applied twice with the same config leaves the entry for
its chain id as after one application; after addChainConfig c1 then c2 for the
same chain id, the stored entry takes the value of c2 on every key c2 has and
keeps the value of c1 on every key only c1 has; a key absent from the new
config keeps the value of the prior entry; and no key of the map is ever
removed. -/
theorem C4_addChainConfig_merge (s : BaseAdapter) (c c1 c2 : CustomChainConfig) :
    (lookupChain ((s.addChainConfig c).addChainConfig c).knownChainConfigs c.chainId =
      lookupChain (s.addChainConfig c).knownChainConfigs c.chainId) ∧
    (c1.chainId = c2.chainId →
      ∀ e : CustomChainConfig,
        lookupChain ((s.addChainConfig c1).addChainConfig c2).knownChainConfigs
          c2.chainId = some e →
        (∀ k v, c2.get k = some v → e.get k = some v) ∧
        (∀ k v, c2.get k = none → c1.get k = some v → e.get k = some v)) ∧
    (∀ (e0 e : CustomChainConfig) (k : ConfigKey) (v : String),
      lookupChain s.knownChainConfigs c.chainId = some e0 →
      c.get k = none → e0.get k = some v →
      lookupChain (s.addChainConfig c).knownChainConfigs c.chainId = some e →
      e.get k = some v) ∧
    (∀ key : Option String, lookupChain s.knownChainConfigs key ≠ none →
      lookupChain (s.addChainConfig c).knownChainConfigs key ≠ none) := by
  refine ⟨?_, fun h12 e he => ?_, fun e0 e k v h0 hck h0k he => ?_, fun key hk => ?_⟩
  · rw [addChainConfig_lookup_self, addChainConfig_lookup_self]
    rw [Option.getD_some, spreadMerge_self_collapse]
  · have hlook := addChainConfig_lookup_self (s.addChainConfig c1) c2
    rw [← h12, addChainConfig_lookup_self, Option.getD_some] at hlook
    rw [← h12, hlook] at he
    obtain rfl := Option.some_injective _ he.symm
    constructor
    · intro k v hk
      rw [spreadMerge_get, hk]
      rfl
    · intro k v h2k h1k
      rw [spreadMerge_get, h2k, spreadMerge_get, h1k]
      cases hbase : (lookupChain s.knownChainConfigs c1.chainId).getD
          emptyChainConfig |>.get k <;> rfl
  · rw [addChainConfig_lookup_self, h0, Option.getD_some] at he
    obtain rfl := Option.some_injective _ he
    rw [spreadMerge_get, hck, h0k]
    rfl
  · by_cases hkey : key = c.chainId
    · subst hkey
      rw [addChainConfig_lookup_self]
      exact fun h => Option.noConfusion h
    · show lookupChain (storeChain s.knownChainConfigs c.chainId _) key ≠ none
      rw [lookupChain_storeChain_ne _ _ _ _ hkey]
      exact hk

/-! ## Concrete instances for witnesses and demonstrations -/

/-- A concrete adapter before init, as a subclass constructor leaves it. -/
def freshAdapter : BaseAdapter :=
  { currentChainNamespace := ("eip155")
    name := ("demo-adapter")
    status := ADAPTER_STATUS.NOT_READY
    hasProvider := false }

/-- A concrete adapter after init resolved. -/
def readyAdapter : BaseAdapter :=
  { currentChainNamespace := ("eip155")
    name := ("demo-adapter")
    status := ADAPTER_STATUS.READY
    hasProvider := true
    clientId := some ("client-1") }

/-- A concrete registry with one known default, for concrete evaluations. -/
def demoRegistry : String → Option String → Option CustomChainConfig :=
  fun ns chainId =>
    if ns = ("eip155") ∧ (chainId = some ("0x1") ∨ chainId = none) then
      some
        { chainNamespace := some ("eip155")
          chainId := some ("0x1")
          rpcTarget := some ("https://rpc.ankr.com/eth")
          blockExplorerUrl := some ("https://etherscan.io")
          ticker := some ("ETH")
          tickerName := some ("Ethereum") }
    else none

/-- A concrete partial chain config a caller supplies. -/
def demoChainConfig : CustomChainConfig :=
  { chainNamespace := some ("eip155")
    chainId := some ("0x1")
    displayName := some ("Mainnet") }

/-- Concrete settings carrying the partial chain config. -/
def demoSettings : BaseAdapterSettings :=
  { clientId := some ("client-9")
    sessionTime := some 3600
    chainConfig := some demoChainConfig
    web3AuthNetwork := some ("testnet")
    useCoreKitKey := some true }

/-- Concrete settings whose chain config lacks a namespace. -/
def noNamespaceSettings : BaseAdapterSettings :=
  { chainConfig := some { chainId := some ("0x1") } }

/-- Concrete settings carrying only falsy simple fields. -/
def falsySettings : BaseAdapterSettings :=
  { clientId := some ("")
    sessionTime := some 0
    web3AuthNetwork := some ("")
    useCoreKitKey := some false }

/-! ## C5: setAdapterSettings is a no-op once READY -/

/-- C5: when the status is READY, setAdapterSettings returns the state
unchanged in every field and throws nothing. -/
theorem C5_setAdapterSettings_ready_noop
    (getChainConfig : String → Option String → Option CustomChainConfig)
    (s : BaseAdapter) (options : BaseAdapterSettings)
    (h : s.status = ADAPTER_STATUS.READY) :
    BaseAdapter.setAdapterSettings getChainConfig s options = (s, none) := by
  unfold BaseAdapter.setAdapterSettings
  rw [if_pos h]

/-- C5 witness: a concrete READY adapter with concrete settings. -/
theorem C5_witness :
    BaseAdapter.setAdapterSettings demoRegistry readyAdapter demoSettings =
      (readyAdapter, none) :=
  C5_setAdapterSettings_ready_noop demoRegistry readyAdapter demoSettings rfl

/-! ## The one reduction of setAdapterSettings with a namespaced chain config -/

/-- Helper: with status not READY and a chain config carrying a non-empty
namespace, setAdapterSettings is the simple-field update followed by setting
the namespace and the merged active config and registering the merged config. -/
theorem setAdapterSettings_chain_eq
    (getChainConfig : String → Option String → Option CustomChainConfig)
    (s : BaseAdapter) (options : BaseAdapterSettings) (cc : CustomChainConfig)
    (ns : String) (hstatus : s.status ≠ ADAPTER_STATUS.READY)
    (hcc : options.chainConfig = some cc) (hns : cc.chainNamespace = some ns)
    (hne : ns ≠ ("")) :
    BaseAdapter.setAdapterSettings getChainConfig s options =
      (BaseAdapter.addChainConfig
        { applySimpleSettings s options with
          currentChainNamespace := ns
          chainConfig := some (spreadMerge
            ((getChainConfig ns cc.chainId).getD emptyChainConfig) cc) }
        (spreadMerge ((getChainConfig ns cc.chainId).getD emptyChainConfig) cc),
       none) := by
  unfold BaseAdapter.setAdapterSettings
  rw [if_neg hstatus, hcc]
  dsimp only
  rw [hns]
  dsimp only
  rw [if_neg hne]

/-! ## C3: setAdapterSettings with a namespaced chain config -/

/-- C3: with status not READY and a chain config carrying a namespace,
setAdapterSettings sets currentChainNamespace from the supplied config, stores
as active chain config the shallow merge of the caller config over the registry
default for (namespace, chainId) — the caller wins on every key it has, the
default alone supplies the keys the caller omits — and registers that merged
config into the known-chains map under its chain id. -/
theorem C3_setAdapterSettings_chainConfig
    (getChainConfig : String → Option String → Option CustomChainConfig)
    (s : BaseAdapter) (options : BaseAdapterSettings) (cc : CustomChainConfig)
    (ns : String) (hstatus : s.status ≠ ADAPTER_STATUS.READY)
    (hcc : options.chainConfig = some cc) (hns : cc.chainNamespace = some ns)
    (hne : ns ≠ ("")) :
    ((BaseAdapter.setAdapterSettings getChainConfig s options).1.currentChainNamespace
      = ns) ∧
    ((BaseAdapter.setAdapterSettings getChainConfig s options).1.chainConfig =
      some (spreadMerge ((getChainConfig ns cc.chainId).getD emptyChainConfig) cc)) ∧
    (∀ k v, cc.get k = some v →
      (spreadMerge ((getChainConfig ns cc.chainId).getD emptyChainConfig) cc).get k
        = some v) ∧
    (∀ k, cc.get k = none →
      (spreadMerge ((getChainConfig ns cc.chainId).getD emptyChainConfig) cc).get k
        = ((getChainConfig ns cc.chainId).getD emptyChainConfig).get k) ∧
    ((BaseAdapter.setAdapterSettings getChainConfig s options).1.knownChainConfigs =
      storeChain s.knownChainConfigs
        (spreadMerge ((getChainConfig ns cc.chainId).getD emptyChainConfig) cc).chainId
        (spreadMerge
          ((lookupChain s.knownChainConfigs
              (spreadMerge ((getChainConfig ns cc.chainId).getD
                emptyChainConfig) cc).chainId).getD
            emptyChainConfig)
          (spreadMerge ((getChainConfig ns cc.chainId).getD emptyChainConfig) cc))) := by
  rw [setAdapterSettings_chain_eq getChainConfig s options cc ns hstatus hcc hns hne]
  refine ⟨rfl, rfl, fun k v hk => ?_, fun k hk => ?_, rfl⟩
  · rw [spreadMerge_get, hk]
    rfl
  · rw [spreadMerge_get, hk]
    rfl

/-- C3 witness: the concrete fresh adapter, settings and registry. -/
theorem C3_witness :
    ((BaseAdapter.setAdapterSettings demoRegistry freshAdapter demoSettings).1.currentChainNamespace
      = ("eip155")) ∧
    ((BaseAdapter.setAdapterSettings demoRegistry freshAdapter demoSettings).1.chainConfig =
      some (spreadMerge
        ((demoRegistry ("eip155") demoChainConfig.chainId).getD emptyChainConfig)
        demoChainConfig)) ∧
    (∀ k v, demoChainConfig.get k = some v →
      (spreadMerge
        ((demoRegistry ("eip155") demoChainConfig.chainId).getD emptyChainConfig)
        demoChainConfig).get k = some v) ∧
    (∀ k, demoChainConfig.get k = none →
      (spreadMerge
        ((demoRegistry ("eip155") demoChainConfig.chainId).getD emptyChainConfig)
        demoChainConfig).get k =
        ((demoRegistry ("eip155") demoChainConfig.chainId).getD emptyChainConfig).get k) ∧
    ((BaseAdapter.setAdapterSettings demoRegistry freshAdapter demoSettings).1.knownChainConfigs =
      storeChain freshAdapter.knownChainConfigs
        (spreadMerge
          ((demoRegistry ("eip155") demoChainConfig.chainId).getD emptyChainConfig)
          demoChainConfig).chainId
        (spreadMerge
          ((lookupChain freshAdapter.knownChainConfigs
              (spreadMerge
                ((demoRegistry ("eip155") demoChainConfig.chainId).getD
                  emptyChainConfig) demoChainConfig).chainId).getD
            emptyChainConfig)
          (spreadMerge
            ((demoRegistry ("eip155") demoChainConfig.chainId).getD emptyChainConfig)
            demoChainConfig))) :=
  C3_setAdapterSettings_chainConfig demoRegistry freshAdapter demoSettings
    demoChainConfig ("eip155") (by decide) rfl rfl (by decide)

/-! ## C6: a chain config without a namespace is rejected, with NotReady -/

/-- C6 counterexample: on a NOT_READY adapter, settings whose chain config
lacks a namespace make setAdapterSettings throw, but the thrown error is the
NotReady kind, not the InvalidParams kind the claim states. -/
theorem C6_counterexample :
    ((BaseAdapter.setAdapterSettings demoRegistry freshAdapter noNamespaceSettings).2 =
      some (Web3AuthError.notReady msgChainNamespaceRequired)) ∧
    ((BaseAdapter.setAdapterSettings demoRegistry freshAdapter noNamespaceSettings).2.map
      Web3AuthError.isInvalidParams ≠ some true) := by
  exact ⟨rfl, by decide⟩

/-- C6 amended: for every adapter whose status is not READY, calling
setAdapterSettings with a settings object whose chainConfig is present but
lacks a chainNamespace fails with a NotReady error (ChainNamespace is required
while setting chainConfig). -/
theorem C6_amended_missing_namespace_notReady
    (getChainConfig : String → Option String → Option CustomChainConfig)
    (s : BaseAdapter) (options : BaseAdapterSettings) (cc : CustomChainConfig)
    (hstatus : s.status ≠ ADAPTER_STATUS.READY)
    (hcc : options.chainConfig = some cc)
    (hns : cc.chainNamespace = none) :
    (BaseAdapter.setAdapterSettings getChainConfig s options).2 =
      some (Web3AuthError.notReady msgChainNamespaceRequired) := by
  unfold BaseAdapter.setAdapterSettings
  rw [if_neg hstatus, hcc]
  dsimp only
  rw [hns]

/-- C6 witness: the concrete fresh adapter and the namespace-less settings. -/
theorem C6_witness :
    (BaseAdapter.setAdapterSettings demoRegistry freshAdapter noNamespaceSettings).2 =
      some (Web3AuthError.notReady msgChainNamespaceRequired) :=
  C6_amended_missing_namespace_notReady demoRegistry freshAdapter noNamespaceSettings
    { chainId := some ("0x1") } (by decide) rfl rfl

/-! ## C10: falsy simple settings are silently skipped, false core-key applies -/

/-- C10: below READY, setAdapterSettings leaves sessionTime unchanged when
passed 0, leaves clientId unchanged when passed the empty string, leaves
web3AuthNetwork unchanged when passed the empty string, yet applies
useCoreKitKey false; and with no chain config in the settings nothing is
thrown. -/
theorem C10_setAdapterSettings_falsy_fields
    (getChainConfig : String → Option String → Option CustomChainConfig)
    (s : BaseAdapter) (options : BaseAdapterSettings)
    (hstatus : s.status ≠ ADAPTER_STATUS.READY) :
    (options.sessionTime = some 0 →
      (BaseAdapter.setAdapterSettings getChainConfig s options).1.sessionTime =
        s.sessionTime) ∧
    (options.clientId = some ("") →
      (BaseAdapter.setAdapterSettings getChainConfig s options).1.clientId =
        s.clientId) ∧
    (options.web3AuthNetwork = some ("") →
      (BaseAdapter.setAdapterSettings getChainConfig s options).1.web3AuthNetwork =
        s.web3AuthNetwork) ∧
    (options.useCoreKitKey = some false →
      (BaseAdapter.setAdapterSettings getChainConfig s options).1.useCoreKitKey =
        some false) ∧
    (options.chainConfig = none →
      (BaseAdapter.setAdapterSettings getChainConfig s options).2 = none) := by
  have hfields :
      ((BaseAdapter.setAdapterSettings getChainConfig s options).1.sessionTime =
        (applySimpleSettings s options).sessionTime) ∧
      ((BaseAdapter.setAdapterSettings getChainConfig s options).1.clientId =
        (applySimpleSettings s options).clientId) ∧
      ((BaseAdapter.setAdapterSettings getChainConfig s options).1.web3AuthNetwork =
        (applySimpleSettings s options).web3AuthNetwork) ∧
      ((BaseAdapter.setAdapterSettings getChainConfig s options).1.useCoreKitKey =
        (applySimpleSettings s options).useCoreKitKey) := by
    unfold BaseAdapter.setAdapterSettings
    rw [if_neg hstatus]
    cases hcf : options.chainConfig with
    | none => exact ⟨rfl, rfl, rfl, rfl⟩
    | some cc =>
      dsimp only
      cases hns : cc.chainNamespace with
      | none => exact ⟨rfl, rfl, rfl, rfl⟩
      | some ns =>
        dsimp only
        by_cases hne : ns = ("")
        · rw [if_pos hne]
          exact ⟨rfl, rfl, rfl, rfl⟩
        · rw [if_neg hne]
          exact ⟨rfl, rfl, rfl, rfl⟩
  obtain ⟨hst, hci, hw, hck⟩ := hfields
  refine ⟨fun h => ?_, fun h => ?_, fun h => ?_, fun h => ?_, fun h => ?_⟩
  · rw [hst]
    unfold applySimpleSettings
    dsimp only
    rw [h]
    simp
  · rw [hci]
    unfold applySimpleSettings
    dsimp only
    rw [h]
    simp
  · rw [hw]
    unfold applySimpleSettings
    dsimp only
    rw [h]
    simp
  · rw [hck]
    unfold applySimpleSettings
    dsimp only
    rw [h]
  · unfold BaseAdapter.setAdapterSettings
    rw [if_neg hstatus, h]

/-- C10 witness: the concrete fresh adapter and the all-falsy settings. -/
theorem C10_witness :
    (falsySettings.sessionTime = some 0 →
      (BaseAdapter.setAdapterSettings demoRegistry freshAdapter falsySettings).1.sessionTime =
        freshAdapter.sessionTime) ∧
    (falsySettings.clientId = some ("") →
      (BaseAdapter.setAdapterSettings demoRegistry freshAdapter falsySettings).1.clientId =
        freshAdapter.clientId) ∧
    (falsySettings.web3AuthNetwork = some ("") →
      (BaseAdapter.setAdapterSettings demoRegistry freshAdapter falsySettings).1.web3AuthNetwork =
        freshAdapter.web3AuthNetwork) ∧
    (falsySettings.useCoreKitKey = some false →
      (BaseAdapter.setAdapterSettings demoRegistry freshAdapter falsySettings).1.useCoreKitKey =
        some false) ∧
    (falsySettings.chainConfig = none →
      (BaseAdapter.setAdapterSettings demoRegistry freshAdapter falsySettings).2 = none) :=
  C10_setAdapterSettings_falsy_fields demoRegistry freshAdapter falsySettings (by decide)

/-! ## Concrete evaluations: every guard branch is reachable -/

/-- A WalletConnect-v2 adapter caught mid-connection. -/
def wcConnectingAdapter : BaseAdapter :=
  { currentChainNamespace := ("eip155")
    name := WALLET_CONNECT_V2
    status := ADAPTER_STATUS.CONNECTING
    hasProvider := true }

/-- An ordinary adapter caught mid-connection. -/
def connectingAdapter : BaseAdapter :=
  { currentChainNamespace := ("eip155")
    name := ("demo-adapter")
    status := ADAPTER_STATUS.CONNECTING
    hasProvider := false }

/-- A connected adapter with one registered chain. -/
def connectedAdapter : BaseAdapter :=
  { currentChainNamespace := ("eip155")
    name := ("demo-adapter")
    status := ADAPTER_STATUS.CONNECTED
    hasProvider := true
    clientId := some ("client-1")
    knownChainConfigs := [(some ("0x1"), demoChainConfig)] }

/-- A config from a foreign namespace. -/
def solanaChainConfig : CustomChainConfig :=
  { chainNamespace := some ("solana")
    chainId := some ("0x3") }

/-- The WalletConnect-v2 family may re-enter the connect-guard while
CONNECTING. -/
theorem connectGuard_walletConnect_reentry :
    wcConnectingAdapter.checkConnectionRequirements = none := by decide

/-- Any other adapter connecting again is rejected as already connecting. -/
theorem connectGuard_connecting_rejected :
    connectingAdapter.checkConnectionRequirements =
      some (Web3AuthError.notReady msgAlreadyConnecting) := by decide

/-- A second connect on a connected adapter is rejected as already
connected. -/
theorem connectGuard_connected_rejected :
    connectedAdapter.checkConnectionRequirements =
      some (Web3AuthError.connectionError msgAlreadyConnected) := by decide

/-- Connect before init resolves is rejected as not ready. -/
theorem connectGuard_notReady_rejected :
    freshAdapter.checkConnectionRequirements =
      some (Web3AuthError.connectionError msgNotReadyYet) := by decide

/-- Connect on a READY adapter passes the guard. -/
theorem connectGuard_ready_passes :
    readyAdapter.checkConnectionRequirements = none := by decide

/-- Init with no client id is rejected with InvalidParams. -/
theorem initGuard_missing_clientId :
    freshAdapter.checkInitializationRequirements =
      some (Web3AuthError.invalidParams msgClientIdRequired) := by decide

/-- Init with a client id but no chain config is rejected with InvalidParams
(the rpcTarget message class, as in the spec example). -/
theorem initGuard_missing_chainConfig :
    BaseAdapter.checkInitializationRequirements
      { freshAdapter with clientId := some ("client-1") } =
      some (Web3AuthError.invalidParams msgRpcTargetRequired) := by decide

/-- A second init while READY is rejected with NotReady. -/
theorem initGuard_second_init_rejected :
    BaseAdapter.checkInitializationRequirements
      { readyAdapter with
        chainConfig := some
          { demoChainConfig with rpcTarget := some ("https://rpc.ankr.com/eth") }
        knownChainConfigs := [(some ("0x1"), demoChainConfig)] } =
      some (Web3AuthError.notReady msgAlreadyInitialized) := by decide

/-- Disconnect while not connected is rejected with DisconnectionError. -/
theorem disconnectGuard_not_connected :
    freshAdapter.checkDisconnectionRequirements =
      some (Web3AuthError.disconnectionError msgDisconnectNotConnected) := by decide

/-- Disconnect while connected passes the guard. -/
theorem disconnectGuard_connected_passes :
    connectedAdapter.checkDisconnectionRequirements = none := by decide

/-- Adding a chain with no live provider outside init is rejected. -/
theorem addChainGuard_no_provider :
    freshAdapter.checkAddChainRequirements demoChainConfig false =
      some (Web3AuthError.notConnectedError msgNotConnectedProvider) := by decide

/-- Adding a chain from a foreign namespace is rejected. -/
theorem addChainGuard_foreign_namespace :
    connectedAdapter.checkAddChainRequirements solanaChainConfig false =
      some (Web3AuthError.chainNamespaceNotAllowed msgNamespaceNotAllowed) := by decide

/-- Adding a chain of the active namespace with a live provider passes. -/
theorem addChainGuard_same_namespace_passes :
    connectedAdapter.checkAddChainRequirements demoChainConfig false = none := by decide

/-- Switching to a never-registered chain id is rejected. -/
theorem switchChainGuard_unregistered :
    connectedAdapter.checkSwitchChainRequirements ("0x89") false =
      some (Web3AuthError.chainConfigNotAdded msgInvalidChainId) := by decide

/-- Switching to a registered chain id passes. -/
theorem switchChainGuard_registered_passes :
    connectedAdapter.checkSwitchChainRequirements ("0x1") false = none := by decide

/-- The spec section 8 example: caller config merged over the registry default
keeps the caller chain id and takes the registry rpc target. -/
theorem setAdapterSettings_merge_example :
    (BaseAdapter.setAdapterSettings demoRegistry freshAdapter demoSettings).1.chainConfig =
      some
        { chainNamespace := some ("eip155")
          chainId := some ("0x1")
          rpcTarget := some ("https://rpc.ankr.com/eth")
          displayName := some ("Mainnet")
          blockExplorerUrl := some ("https://etherscan.io")
          ticker := some ("ETH")
          tickerName := some ("Ethereum") } := by decide

end Web3Auth
